import Mathlib

/-!
Shallow embedding of the `lawg` logging library (src/src/lib.rs).

The Rust code is a single `Logger` struct with eight write operations over
two destinations: standard output (`println!`) and an optional log file
(`fs::read_to_string` followed by `fs::write` of the whole content).

Modelling choices:
* The file system is an association list from paths to contents
  (`fsLookup` / `fsInsert`); a path absent from the list does not exist,
  so `fs::read_to_string` on it fails (the Rust code then panics).
  Writes always succeed in the model (permission errors are not modelled).
* Every I/O action is recorded in an event trace (`Event`), so that
  claims about "no file I/O" and "never writes to standard output" are
  about the actual operations performed, not only about final contents.
* Process termination is the `Res` outcome: `ok` (control returns),
  `panic msg` (Rust `panic!(msg)` / `unwrap_or_else(.. panic! ..)`), and
  `exit code` (`std::process::exit(code)`).
* `chrono`'s `Utc::now().to_string()` and `Local::now().to_string()` are
  nondeterministic inputs; each call site of `now()` receives its own
  pair `(tUtc, tLocal)` of oracle strings and `use_utc` selects one,
  exactly as the `if self.use_utc { Utc::now()... } else { Local::now()... }`
  block does.
* Rust formats the timestamp string with `{:?}` (Debug), which wraps it
  in double quotes and escapes special characters; `rustDebugFmt` models
  this (the escapes relevant to text that can occur here).
-/

/-- One observable I/O event: a file read (`fs::read_to_string`), a file
write (`fs::write`), or a line printed to standard output (`println!`). -/
inductive Event where
  | readF : String → Event
  | writeF : String → Event
  | out : String → Event
  deriving DecidableEq, Repr

/-- Outcome of running an operation: normal return, Rust panic with a
message, or process termination via `std::process::exit`. -/
inductive Res where
  | ok : Res
  | panic : String → Res
  | exit : Nat → Res
  deriving DecidableEq, Repr

/-- The world the library acts on: file contents by path, plus the trace
of I/O events performed so far (standard output is the `Event.out` lines). -/
structure World where
  fs : List (String × String)
  trace : List Event
  deriving DecidableEq, Repr

/-- Look a path up in the modelled file system. -/
def fsLookup : List (String × String) → String → Option String
  | [], _ => none
  | (q, c) :: rest, p => if q = p then some c else fsLookup rest p

/-- Write a file: replace the content if the path exists, create it otherwise. -/
def fsInsert : List (String × String) → String → String → List (String × String)
  | [], p, c => [(p, c)]
  | (q, d) :: rest, p, c => if q = p then (p, c) :: rest else (q, d) :: fsInsert rest p c

/-- `std::path::Path::new(&file).exists()`. -/
def fsExists (fs : List (String × String)) (p : String) : Bool :=
  (fsLookup fs p).isSome

/-- `fs::read_to_string`: returns the content when the file exists,
`none` (the Rust `Err` case) otherwise; records the read attempt. -/
def World.readToString (w : World) (p : String) : Option String × World :=
  (fsLookup w.fs p, { w with trace := w.trace ++ [Event.readF p] })

/-- `fs::write`: replaces the whole file content; records the write. -/
def World.write (w : World) (p c : String) : World :=
  { fs := fsInsert w.fs p c, trace := w.trace ++ [Event.writeF p] }

/-- `println!`: appends one line to standard output. -/
def World.println (w : World) (s : String) : World :=
  { w with trace := w.trace ++ [Event.out s] }

/-- The lines on standard output, in order. -/
def stdoutOf (w : World) : List String :=
  w.trace.filterMap fun e =>
    match e with
    | Event.out s => some s
    | _ => none

/-- Escape one character the way Rust's `{:?}` (Debug) formatting of a
string does, for the characters that can occur in this program's text. -/
def rustEscapeChar (c : Char) : String :=
  if c = '"' then "\\\""
  else if c = '\\' then "\\\\"
  else if c = '\n' then "\\n"
  else if c = '\t' then "\\t"
  else if c = '\r' then "\\r"
  else String.singleton c

/-- Rust `format!("{:?}", s)` for a string `s`: double quotes around the
escaped text. -/
def rustDebugFmt (s : String) : String :=
  "\"" ++ String.join (s.data.map rustEscapeChar) ++ "\""

/-- The `Logger` struct of src/src/lib.rs. -/
structure Logger where
  logger_name : String
  file_log : Option String
  use_utc : Bool
  deriving DecidableEq, Repr

/-- The timestamp string one `now()` call site produces:
`Utc::now().to_string()` when `use_utc`, else `Local::now().to_string()`;
`tUtc` / `tLocal` are the oracle values of those two calls. -/
def nowString (l : Logger) (tUtc tLocal : String) : String :=
  if l.use_utc then tUtc else tLocal

/-- `format!("{} - [{:?}]: {}", name, ts, msg)`: the non-error line. -/
def logLine (name ts msg : String) : String :=
  name ++ " - [" ++ rustDebugFmt ts ++ "]: " ++ msg

/-- `format!("ERROR: {} - [{:?}]: {}", name, ts, msg)`: the error line. -/
def errorLine (name ts msg : String) : String :=
  "ERROR: " ++ name ++ " - [" ++ rustDebugFmt ts ++ "]: " ++ msg

/-- `Logger::new`: when a file path is given, read the file if it exists
(panicking if the read fails), then write the content back (creating the
file when it was absent); then return the constructed struct. -/
def Logger.new (logger_name : String) (file_log : Option String) (use_utc : Bool)
    (w : World) : Res × World × Logger :=
  match file_log with
  | some file =>
      if fsExists w.fs file then
        match w.readToString file with
        | (some content, w1) =>
            (Res.ok, (w1.write file content, ⟨logger_name, file_log, use_utc⟩))
        | (none, w1) =>
            (Res.panic ("Could not read log file `" ++ file ++ "`"), (w1, ⟨logger_name, file_log, use_utc⟩))
      else
        (Res.ok, (w.write file "", ⟨logger_name, file_log, use_utc⟩))
  | none => (Res.ok, (w, ⟨logger_name, file_log, use_utc⟩))

/-- `Logger::log`: print the formatted line to standard output. -/
def Logger.log (l : Logger) (msg tUtc tLocal : String) (w : World) : Res × World :=
  (Res.ok, w.println (logLine l.logger_name (nowString l tUtc tLocal) msg))

/-- `Logger::error`: print the `ERROR: `-prefixed line to standard output. -/
def Logger.error (l : Logger) (msg tUtc tLocal : String) (w : World) : Res × World :=
  (Res.ok, w.println (errorLine l.logger_name (nowString l tUtc tLocal) msg))

/-- `Logger::log_to_file`: read the whole file (panicking when the read
fails), write back old content + `"\n"` + formatted line; panic with
`"Log file not provided."` when no file path is configured. -/
def Logger.log_to_file (l : Logger) (msg tUtc tLocal : String) (w : World) : Res × World :=
  match l.file_log with
  | some file_log =>
      match w.readToString file_log with
      | (some content, w1) =>
          (Res.ok, w1.write file_log
            (content ++ "\n" ++ logLine l.logger_name (nowString l tUtc tLocal) msg))
      | (none, w1) =>
          (Res.panic ("Could not read log file `" ++ file_log ++ "`"), w1)
  | none => (Res.panic "Log file not provided.", w)

/-- `Logger::error_to_file`: like `log_to_file` with the error line. -/
def Logger.error_to_file (l : Logger) (msg tUtc tLocal : String) (w : World) : Res × World :=
  match l.file_log with
  | some file_log =>
      match w.readToString file_log with
      | (some content, w1) =>
          (Res.ok, w1.write file_log
            (content ++ "\n" ++ errorLine l.logger_name (nowString l tUtc tLocal) msg))
      | (none, w1) =>
          (Res.panic ("Could not read log file `" ++ file_log ++ "`"), w1)
  | none => (Res.panic "Log file not provided.", w)

/-- `Logger::log_and_log_to_file`: `self.log(msg)` then
`self.log_to_file(msg)`; each call derives its own timestamp. -/
def Logger.log_and_log_to_file (l : Logger) (msg tUtc1 tLocal1 tUtc2 tLocal2 : String)
    (w : World) : Res × World :=
  match l.log msg tUtc1 tLocal1 w with
  | (Res.ok, w1) => l.log_to_file msg tUtc2 tLocal2 w1
  | r => r

/-- `Logger::error_and_error_to_file`: `self.error(msg)` then
`self.error_to_file(msg)`; each call derives its own timestamp. -/
def Logger.error_and_error_to_file (l : Logger) (msg tUtc1 tLocal1 tUtc2 tLocal2 : String)
    (w : World) : Res × World :=
  match l.error msg tUtc1 tLocal1 w with
  | (Res.ok, w1) => l.error_to_file msg tUtc2 tLocal2 w1
  | r => r

/-- `Logger::error_and_stop`: print the error line, then
`std::process::exit(1)`. -/
def Logger.error_and_stop (l : Logger) (msg tUtc tLocal : String) (w : World) : Res × World :=
  (Res.exit 1, w.println (errorLine l.logger_name (nowString l tUtc tLocal) msg))

/-- `Logger::error_and_stop_to_file`: like `error_to_file`, then
`std::process::exit(1)` after the successful write. -/
def Logger.error_and_stop_to_file (l : Logger) (msg tUtc tLocal : String) (w : World) : Res × World :=
  match l.file_log with
  | some file_log =>
      match w.readToString file_log with
      | (some content, w1) =>
          (Res.exit 1, w1.write file_log
            (content ++ "\n" ++ errorLine l.logger_name (nowString l tUtc tLocal) msg))
      | (none, w1) =>
          (Res.panic ("Could not read log file `" ++ file_log ++ "`"), w1)
  | none => (Res.panic "Log file not provided.", w)

/-- The eight methods of `impl Logger`, as one enumeration. -/
inductive Op where
  | log | log_to_file | log_and_log_to_file
  | error | error_to_file | error_and_error_to_file
  | error_and_stop | error_and_stop_to_file
  deriving DecidableEq, Repr

/-- Run one method call on a `&self` receiver: the method reads the
`Logger` fields and returns; the `Logger` component of the result is the
receiver's state after the call, translated from the source (which never
assigns to any field). -/
def runOp (op : Op) (l : Logger) (msg tUtc1 tLocal1 tUtc2 tLocal2 : String)
    (w : World) : Res × World × Logger :=
  match op with
  | Op.log => ((l.log msg tUtc1 tLocal1 w).1, (l.log msg tUtc1 tLocal1 w).2, l)
  | Op.log_to_file => ((l.log_to_file msg tUtc1 tLocal1 w).1, (l.log_to_file msg tUtc1 tLocal1 w).2, l)
  | Op.log_and_log_to_file =>
      ((l.log_and_log_to_file msg tUtc1 tLocal1 tUtc2 tLocal2 w).1,
       (l.log_and_log_to_file msg tUtc1 tLocal1 tUtc2 tLocal2 w).2, l)
  | Op.error => ((l.error msg tUtc1 tLocal1 w).1, (l.error msg tUtc1 tLocal1 w).2, l)
  | Op.error_to_file => ((l.error_to_file msg tUtc1 tLocal1 w).1, (l.error_to_file msg tUtc1 tLocal1 w).2, l)
  | Op.error_and_error_to_file =>
      ((l.error_and_error_to_file msg tUtc1 tLocal1 tUtc2 tLocal2 w).1,
       (l.error_and_error_to_file msg tUtc1 tLocal1 tUtc2 tLocal2 w).2, l)
  | Op.error_and_stop => ((l.error_and_stop msg tUtc1 tLocal1 w).1, (l.error_and_stop msg tUtc1 tLocal1 w).2, l)
  | Op.error_and_stop_to_file =>
      ((l.error_and_stop_to_file msg tUtc1 tLocal1 w).1, (l.error_and_stop_to_file msg tUtc1 tLocal1 w).2, l)

/-- `s` begins with `p` (there is a continuation `t` with `s = p ++ t`). -/
def beginsWith (p s : String) : Prop := ∃ t : String, s = p ++ t

instance (p s : String) : Decidable (beginsWith p s) :=
  decidable_of_iff (s.data.take p.data.length = p.data)
    (by
      constructor
      · intro h
        refine ⟨⟨s.data.drop p.data.length⟩, String.ext ?_⟩
        simp only [String.data_append]
        conv_lhs => rw [← List.take_append_drop p.data.length s.data]
        rw [h]
      · rintro ⟨t, rfl⟩
        simp [String.data_append, List.take_left])

/-! ### Helper lemmas -/

theorem fsLookup_fsInsert_self (fs : List (String × String)) (p c : String) :
    fsLookup (fsInsert fs p c) p = some c := by
  induction fs with
  | nil => simp [fsInsert, fsLookup]
  | cons hd tl ih =>
      obtain ⟨q, d⟩ := hd
      by_cases h : q = p
      · simp [fsInsert, fsLookup, h]
      · simp [fsInsert, fsLookup, h, ih]

theorem errorLine_eq_append (n t m : String) :
    errorLine n t m = "ERROR: " ++ logLine n t m := by
  unfold errorLine logLine
  simp [String.append_assoc]

theorem stdoutOf_println (w : World) (s : String) :
    stdoutOf (w.println s) = stdoutOf w ++ [s] := by
  simp [stdoutOf, World.println, List.filterMap_append]

theorem stdoutOf_write (w : World) (p c : String) :
    stdoutOf (w.write p c) = stdoutOf w := by
  simp [stdoutOf, World.write, List.filterMap_append]

theorem stdoutOf_read (w : World) (p : String) :
    stdoutOf (w.readToString p).2 = stdoutOf w := by
  simp [stdoutOf, World.readToString, List.filterMap_append]

/-! ### Claims -/

/-- C1: for a Logger whose file path is set and whose target file holds
content `C`, `log_to_file` / `error_to_file` with message `msg` succeed and
leave the file holding exactly `C ++ "\n" ++ <formatted line>` (with the
`ERROR: ` prefix for the error variant), and nothing else. -/
theorem c1_file_write_appends (l : Logger) (p C msg tUtc tLocal : String) (w : World)
    (hp : l.file_log = some p) (hC : fsLookup w.fs p = some C) :
    (l.log_to_file msg tUtc tLocal w).1 = Res.ok ∧
    fsLookup (l.log_to_file msg tUtc tLocal w).2.fs p
      = some (C ++ "\n" ++ logLine l.logger_name (nowString l tUtc tLocal) msg) ∧
    (l.error_to_file msg tUtc tLocal w).1 = Res.ok ∧
    fsLookup (l.error_to_file msg tUtc tLocal w).2.fs p
      = some (C ++ "\n" ++ errorLine l.logger_name (nowString l tUtc tLocal) msg) := by
  simp [Logger.log_to_file, Logger.error_to_file, hp, World.readToString, hC, World.write,
    fsLookup_fsInsert_self]

/-- Witness for C1 at a concrete logger, file and message. -/
theorem c1_witness :
    (Logger.log_to_file ⟨"N", some "f", true⟩ "m" "T" "S" ⟨[("f", "c0")], []⟩).1 = Res.ok ∧
    fsLookup (Logger.log_to_file ⟨"N", some "f", true⟩ "m" "T" "S" ⟨[("f", "c0")], []⟩).2.fs "f"
      = some ("c0" ++ "\n" ++ logLine "N" (nowString ⟨"N", some "f", true⟩ "T" "S") "m") ∧
    (Logger.error_to_file ⟨"N", some "f", true⟩ "m" "T" "S" ⟨[("f", "c0")], []⟩).1 = Res.ok ∧
    fsLookup (Logger.error_to_file ⟨"N", some "f", true⟩ "m" "T" "S" ⟨[("f", "c0")], []⟩).2.fs "f"
      = some ("c0" ++ "\n" ++ errorLine "N" (nowString ⟨"N", some "f", true⟩ "T" "S") "m") :=
  c1_file_write_appends ⟨"N", some "f", true⟩ "f" "c0" "m" "T" "S" ⟨[("f", "c0")], []⟩ rfl rfl

/-- C2 counterexample: with no file path configured, `log_to_file` does
terminate fatally with no I/O, but the panic message is
`"Log file not provided."` (trailing period), not `"Log file not provided"`
as the claim states. -/
theorem c2_counterexample :
    (Logger.log_to_file ⟨"L", none, true⟩ "m" "T" "S" ⟨[], []⟩)
      = (Res.panic "Log file not provided.", ⟨[], []⟩) ∧
    Res.panic "Log file not provided." ≠ Res.panic "Log file not provided" := by
  decide

/-- C2 (amended): on a Logger with no file path, `log_to_file`,
`error_to_file` and `error_and_stop_to_file` all panic with the message
`"Log file not provided."` and leave the world untouched: no file read,
no file write, no output (the event trace is unchanged). -/
theorem c2_missing_path (l : Logger) (msg tUtc tLocal : String) (w : World)
    (h : l.file_log = none) :
    l.log_to_file msg tUtc tLocal w = (Res.panic "Log file not provided.", w) ∧
    l.error_to_file msg tUtc tLocal w = (Res.panic "Log file not provided.", w) ∧
    l.error_and_stop_to_file msg tUtc tLocal w = (Res.panic "Log file not provided.", w) := by
  simp [Logger.log_to_file, Logger.error_to_file, Logger.error_and_stop_to_file, h]

/-- Witness for C2 (amended) at a concrete logger with no file path. -/
theorem c2_witness :
    Logger.log_to_file ⟨"L", none, true⟩ "m" "T" "S" ⟨[], []⟩
      = (Res.panic "Log file not provided.", ⟨[], []⟩) ∧
    Logger.error_to_file ⟨"L", none, true⟩ "m" "T" "S" ⟨[], []⟩
      = (Res.panic "Log file not provided.", ⟨[], []⟩) ∧
    Logger.error_and_stop_to_file ⟨"L", none, true⟩ "m" "T" "S" ⟨[], []⟩
      = (Res.panic "Log file not provided.", ⟨[], []⟩) :=
  c2_missing_path ⟨"L", none, true⟩ "m" "T" "S" ⟨[], []⟩ rfl

/-- C3: construction with a file path is idempotent on file content: when
the target file exists with content `C` it still holds exactly `C`
afterwards, and when it does not exist it exists empty afterwards. -/
theorem c3_new_idempotent (name p : String) (u : Bool) (w : World) :
    (∀ C, fsLookup w.fs p = some C →
      (Logger.new name (some p) u w).1 = Res.ok ∧
      fsLookup (Logger.new name (some p) u w).2.1.fs p = some C) ∧
    (fsLookup w.fs p = none →
      (Logger.new name (some p) u w).1 = Res.ok ∧
      fsLookup (Logger.new name (some p) u w).2.1.fs p = some "") := by
  constructor
  · intro C hC
    simp [Logger.new, fsExists, hC, World.readToString, World.write, fsLookup_fsInsert_self]
  · intro h
    simp [Logger.new, fsExists, h, World.write, fsLookup_fsInsert_self]

/-- Witness for C3: an existing file keeps its content, and a missing
file is created empty. -/
theorem c3_witness :
    fsLookup (Logger.new "N" (some "f") true ⟨[("f", "hi")], []⟩).2.1.fs "f" = some "hi" ∧
    fsLookup (Logger.new "N" (some "f") true ⟨[], []⟩).2.1.fs "f" = some "" :=
  ⟨((c3_new_idempotent "N" "f" true ⟨[("f", "hi")], []⟩).1 "hi" rfl).2,
   ((c3_new_idempotent "N" "f" true ⟨[], []⟩).2 rfl).2⟩

theorem log_to_file_stdout (l : Logger) (msg tUtc tLocal : String) (w : World) :
    stdoutOf (l.log_to_file msg tUtc tLocal w).2 = stdoutOf w := by
  rcases hf : l.file_log with _ | p
  · simp [Logger.log_to_file, hf]
  · rcases hc : fsLookup w.fs p with _ | c
    · simp [Logger.log_to_file, hf, World.readToString, hc, stdoutOf, List.filterMap_append]
    · simp [Logger.log_to_file, hf, World.readToString, hc, World.write, stdoutOf,
        List.filterMap_append]

theorem error_to_file_stdout (l : Logger) (msg tUtc tLocal : String) (w : World) :
    stdoutOf (l.error_to_file msg tUtc tLocal w).2 = stdoutOf w := by
  rcases hf : l.file_log with _ | p
  · simp [Logger.error_to_file, hf]
  · rcases hc : fsLookup w.fs p with _ | c
    · simp [Logger.error_to_file, hf, World.readToString, hc, stdoutOf, List.filterMap_append]
    · simp [Logger.error_to_file, hf, World.readToString, hc, World.write, stdoutOf,
        List.filterMap_append]

theorem log_to_file_trace_extend (l : Logger) (msg tUtc tLocal : String) (w : World) :
    ∃ tr, (l.log_to_file msg tUtc tLocal w).2.trace = w.trace ++ tr := by
  rcases hf : l.file_log with _ | p
  · exact ⟨[], by simp [Logger.log_to_file, hf]⟩
  · rcases hc : fsLookup w.fs p with _ | c
    · exact ⟨[Event.readF p], by simp [Logger.log_to_file, hf, World.readToString, hc]⟩
    · exact ⟨[Event.readF p, Event.writeF p], by
        simp [Logger.log_to_file, hf, World.readToString, hc, World.write]⟩

theorem error_to_file_trace_extend (l : Logger) (msg tUtc tLocal : String) (w : World) :
    ∃ tr, (l.error_to_file msg tUtc tLocal w).2.trace = w.trace ++ tr := by
  rcases hf : l.file_log with _ | p
  · exact ⟨[], by simp [Logger.error_to_file, hf]⟩
  · rcases hc : fsLookup w.fs p with _ | c
    · exact ⟨[Event.readF p], by simp [Logger.error_to_file, hf, World.readToString, hc]⟩
    · exact ⟨[Event.readF p, Event.writeF p], by
        simp [Logger.error_to_file, hf, World.readToString, hc, World.write]⟩

theorem log_and_log_to_file_eq (l : Logger) (msg tUtc1 tLocal1 tUtc2 tLocal2 : String) (w : World) :
    l.log_and_log_to_file msg tUtc1 tLocal1 tUtc2 tLocal2 w
      = l.log_to_file msg tUtc2 tLocal2
          (w.println (logLine l.logger_name (nowString l tUtc1 tLocal1) msg)) := rfl

theorem error_and_error_to_file_eq (l : Logger) (msg tUtc1 tLocal1 tUtc2 tLocal2 : String) (w : World) :
    l.error_and_error_to_file msg tUtc1 tLocal1 tUtc2 tLocal2 w
      = l.error_to_file msg tUtc2 tLocal2
          (w.println (errorLine l.logger_name (nowString l tUtc1 tLocal1) msg)) := rfl

/-- C4 counterexample: constructing `("Svc", Some("out.txt"), true)`
against a nonexistent `out.txt` and then calling `log_to_file("hello")`
leaves the file holding `"\n" ++ <formatted line>` — the first write DOES
produce a leading newline, contradicting the claim that the file holds
exactly the formatted line with no leading newline. -/
theorem c4_counterexample :
    fsLookup ((Logger.new "Svc" (some "out.txt") true ⟨[], []⟩).2.2.log_to_file "hello" "T" "S"
        (Logger.new "Svc" (some "out.txt") true ⟨[], []⟩).2.1).2.fs "out.txt"
      = some ("\n" ++ logLine "Svc" "T" "hello") ∧
    "\n" ++ logLine "Svc" "T" "hello" ≠ logLine "Svc" "T" "hello" := by
  constructor
  · rfl
  · decide

/-- C4 (amended): after constructing `("Svc", Some("out.txt"), true)`
against a nonexistent `out.txt` (created empty) and calling
`log_to_file("hello")`, the file holds a single leading `"\n"` followed by
exactly one line `Svc - [<UTC timestamp>]: hello`. -/
theorem c4_first_write (tUtc tLocal : String) (w : World)
    (h : fsLookup w.fs "out.txt" = none) :
    fsLookup ((Logger.new "Svc" (some "out.txt") true w).2.2.log_to_file "hello" tUtc tLocal
        (Logger.new "Svc" (some "out.txt") true w).2.1).2.fs "out.txt"
      = some ("\n" ++ logLine "Svc" tUtc "hello") := by
  simp [Logger.new, fsExists, h, World.write, Logger.log_to_file, World.readToString,
    fsLookup_fsInsert_self, nowString, String.empty_append]

/-- Witness for C4 (amended) at a concrete world and timestamp. -/
theorem c4_witness :
    fsLookup ((Logger.new "Svc" (some "out.txt") true ⟨[], []⟩).2.2.log_to_file "hello" "T" "S"
        (Logger.new "Svc" (some "out.txt") true ⟨[], []⟩).2.1).2.fs "out.txt"
      = some ("\n" ++ logLine "Svc" "T" "hello") :=
  c4_first_write "T" "S" ⟨[], []⟩ rfl

/-- C6: the combined operations run the console variant first and the file
variant second with the same message: standard output always gains the
console line (even when the file part then fails fatally), the trace shows
the console event before any file event, and when the file is present and
readable it gains the same message appended. -/
theorem c6_combined (l : Logger) (msg tUtc1 tLocal1 tUtc2 tLocal2 : String) (w : World) :
    stdoutOf (l.log_and_log_to_file msg tUtc1 tLocal1 tUtc2 tLocal2 w).2
      = stdoutOf w ++ [logLine l.logger_name (nowString l tUtc1 tLocal1) msg] ∧
    (∃ tr, (l.log_and_log_to_file msg tUtc1 tLocal1 tUtc2 tLocal2 w).2.trace
      = w.trace ++ Event.out (logLine l.logger_name (nowString l tUtc1 tLocal1) msg) :: tr) ∧
    (∀ p C, l.file_log = some p → fsLookup w.fs p = some C →
      fsLookup (l.log_and_log_to_file msg tUtc1 tLocal1 tUtc2 tLocal2 w).2.fs p
        = some (C ++ "\n" ++ logLine l.logger_name (nowString l tUtc2 tLocal2) msg)) ∧
    stdoutOf (l.error_and_error_to_file msg tUtc1 tLocal1 tUtc2 tLocal2 w).2
      = stdoutOf w ++ [errorLine l.logger_name (nowString l tUtc1 tLocal1) msg] ∧
    (∃ tr, (l.error_and_error_to_file msg tUtc1 tLocal1 tUtc2 tLocal2 w).2.trace
      = w.trace ++ Event.out (errorLine l.logger_name (nowString l tUtc1 tLocal1) msg) :: tr) ∧
    (∀ p C, l.file_log = some p → fsLookup w.fs p = some C →
      fsLookup (l.error_and_error_to_file msg tUtc1 tLocal1 tUtc2 tLocal2 w).2.fs p
        = some (C ++ "\n" ++ errorLine l.logger_name (nowString l tUtc2 tLocal2) msg)) := by
  refine ⟨?_, ?_, ?_, ?_, ?_, ?_⟩
  · rw [log_and_log_to_file_eq, log_to_file_stdout, stdoutOf_println]
  · rw [log_and_log_to_file_eq]
    obtain ⟨tr, htr⟩ := log_to_file_trace_extend l msg tUtc2 tLocal2
      (w.println (logLine l.logger_name (nowString l tUtc1 tLocal1) msg))
    refine ⟨tr, ?_⟩
    rw [htr]
    simp [World.println]
  · intro p C hp hC
    rw [log_and_log_to_file_eq]
    simp [Logger.log_to_file, hp, World.readToString, World.println, hC, World.write,
      fsLookup_fsInsert_self]
  · rw [error_and_error_to_file_eq, error_to_file_stdout, stdoutOf_println]
  · rw [error_and_error_to_file_eq]
    obtain ⟨tr, htr⟩ := error_to_file_trace_extend l msg tUtc2 tLocal2
      (w.println (errorLine l.logger_name (nowString l tUtc1 tLocal1) msg))
    refine ⟨tr, ?_⟩
    rw [htr]
    simp [World.println]
  · intro p C hp hC
    rw [error_and_error_to_file_eq]
    simp [Logger.error_to_file, hp, World.readToString, World.println, hC, World.write,
      fsLookup_fsInsert_self]

/-- Witness for C6 at a concrete logger with a readable file. -/
theorem c6_witness :
    stdoutOf (Logger.log_and_log_to_file ⟨"N", some "f", true⟩ "X" "T1" "S1" "T2" "S2"
        ⟨[("f", "c0")], []⟩).2
      = stdoutOf ⟨[("f", "c0")], []⟩
          ++ [logLine "N" (nowString ⟨"N", some "f", true⟩ "T1" "S1") "X"] ∧
    fsLookup (Logger.log_and_log_to_file ⟨"N", some "f", true⟩ "X" "T1" "S1" "T2" "S2"
        ⟨[("f", "c0")], []⟩).2.fs "f"
      = some ("c0" ++ "\n" ++ logLine "N" (nowString ⟨"N", some "f", true⟩ "T2" "S2") "X") :=
  ⟨(c6_combined ⟨"N", some "f", true⟩ "X" "T1" "S1" "T2" "S2" ⟨[("f", "c0")], []⟩).1,
   (c6_combined ⟨"N", some "f", true⟩ "X" "T1" "S1" "T2" "S2" ⟨[("f", "c0")], []⟩).2.2.1
     "f" "c0" rfl rfl⟩

/-- C7 counterexample: a fatal I/O failure does not exit with status 1:
`error_and_stop_to_file` on a logger whose file is unreadable (missing)
terminates with a panic, not with `exit(1)`. -/
theorem c7_counterexample :
    (Logger.error_and_stop_to_file ⟨"L", some "f", true⟩ "m" "T" "S" ⟨[], []⟩).1
      = Res.panic "Could not read log file `f`" ∧
    Res.panic "Could not read log file `f`" ≠ Res.exit 1 := by
  constructor
  · rfl
  · decide

/-- C7 (amended): `error_and_stop` always terminates with exit status 1,
and `error_and_stop_to_file` does so after its successful write; but the
failure paths (missing file path, unreadable file) terminate via panic,
not via `exit(1)`. -/
theorem c7_exit_behavior (l : Logger) (msg tUtc tLocal : String) (w : World) :
    (l.error_and_stop msg tUtc tLocal w).1 = Res.exit 1 ∧
    (∀ p C, l.file_log = some p → fsLookup w.fs p = some C →
      (l.error_and_stop_to_file msg tUtc tLocal w).1 = Res.exit 1 ∧
      fsLookup (l.error_and_stop_to_file msg tUtc tLocal w).2.fs p
        = some (C ++ "\n" ++ errorLine l.logger_name (nowString l tUtc tLocal) msg)) ∧
    (l.file_log = none →
      (l.error_and_stop_to_file msg tUtc tLocal w).1 = Res.panic "Log file not provided.") ∧
    (∀ p, l.file_log = some p → fsLookup w.fs p = none →
      (l.error_and_stop_to_file msg tUtc tLocal w).1
        = Res.panic ("Could not read log file `" ++ p ++ "`")) := by
  refine ⟨rfl, ?_, ?_, ?_⟩
  · intro p C hp hC
    simp [Logger.error_and_stop_to_file, hp, World.readToString, hC, World.write,
      fsLookup_fsInsert_self]
  · intro h
    simp [Logger.error_and_stop_to_file, h]
  · intro p hp hC
    simp [Logger.error_and_stop_to_file, hp, World.readToString, hC]

/-- Witness for C7 (amended) at a concrete logger with a readable file. -/
theorem c7_witness :
    (Logger.error_and_stop ⟨"L", some "f", true⟩ "m" "T" "S" ⟨[("f", "c0")], []⟩).1
      = Res.exit 1 ∧
    (Logger.error_and_stop_to_file ⟨"L", some "f", true⟩ "m" "T" "S" ⟨[("f", "c0")], []⟩).1
      = Res.exit 1 :=
  ⟨(c7_exit_behavior ⟨"L", some "f", true⟩ "m" "T" "S" ⟨[("f", "c0")], []⟩).1,
   ((c7_exit_behavior ⟨"L", some "f", true⟩ "m" "T" "S" ⟨[("f", "c0")], []⟩).2.1
     "f" "c0" rfl rfl).1⟩

/-- C8: console and file destinations are isolated: `log` and `error`
leave the file system untouched and perform no file read or write (they
add exactly one output event), while `log_to_file` and `error_to_file`
leave standard output untouched. -/
theorem c8_isolation (l : Logger) (msg tUtc tLocal : String) (w : World) :
    (l.log msg tUtc tLocal w).2.fs = w.fs ∧
    (l.log msg tUtc tLocal w).2.trace
      = w.trace ++ [Event.out (logLine l.logger_name (nowString l tUtc tLocal) msg)] ∧
    (l.error msg tUtc tLocal w).2.fs = w.fs ∧
    (l.error msg tUtc tLocal w).2.trace
      = w.trace ++ [Event.out (errorLine l.logger_name (nowString l tUtc tLocal) msg)] ∧
    stdoutOf (l.log_to_file msg tUtc tLocal w).2 = stdoutOf w ∧
    stdoutOf (l.error_to_file msg tUtc tLocal w).2 = stdoutOf w :=
  ⟨rfl, rfl, rfl, rfl, log_to_file_stdout l msg tUtc tLocal w,
   error_to_file_stdout l msg tUtc tLocal w⟩

/-- C9: no method mutates the Logger: after any of the eight operations,
the receiver still has the same `logger_name`, `file_log` and `use_utc`. -/
theorem c9_logger_immutable (op : Op) (l : Logger) (msg tUtc1 tLocal1 tUtc2 tLocal2 : String)
    (w : World) :
    (runOp op l msg tUtc1 tLocal1 tUtc2 tLocal2 w).2.2.logger_name = l.logger_name ∧
    (runOp op l msg tUtc1 tLocal1 tUtc2 tLocal2 w).2.2.file_log = l.file_log ∧
    (runOp op l msg tUtc1 tLocal1 tUtc2 tLocal2 w).2.2.use_utc = l.use_utc := by
  cases op <;> exact ⟨rfl, rfl, rfl⟩

/-- C10: for the same name, timestamp and message, the error-class line is
exactly the literal `"ERROR: "` followed by the non-error line: the two
formatting paths differ only in that prefix (shown both on the line
builders and on the console operations' output). -/
theorem c10_error_vs_log (l : Logger) (msg tUtc tLocal : String) (w : World) :
    errorLine l.logger_name (nowString l tUtc tLocal) msg
      = "ERROR: " ++ logLine l.logger_name (nowString l tUtc tLocal) msg ∧
    stdoutOf (l.error msg tUtc tLocal w).2
      = stdoutOf w ++ ["ERROR: " ++ logLine l.logger_name (nowString l tUtc tLocal) msg] ∧
    stdoutOf (l.log msg tUtc tLocal w).2
      = stdoutOf w ++ [logLine l.logger_name (nowString l tUtc tLocal) msg] := by
  refine ⟨errorLine_eq_append _ _ _, ?_, stdoutOf_println _ _⟩
  show stdoutOf (w.println (errorLine l.logger_name (nowString l tUtc tLocal) msg)) = _
  rw [stdoutOf_println, errorLine_eq_append]

theorem beginsWith_data (p s : String) :
    beginsWith p s ↔ ∃ u : List Char, s.data = p.data ++ u := by
  constructor
  · rintro ⟨t, rfl⟩
    exact ⟨t.data, by simp [String.data_append]⟩
  · rintro ⟨u, hu⟩
    exact ⟨⟨u⟩, String.ext (by simp [String.data_append, hu])⟩

theorem errorLit_space_at_six :
    ∀ k < 7, (['E','R','R','O','R',':',' '] : List Char)[k]? = some ' ' → k = 6 := by
  decide

theorem no_error_marker (n rest t : List Char)
    (hn : ¬ ∃ u : List Char, n = "ERROR:".data ++ u)
    (h : n ++ (' ' :: rest) = "ERROR: ".data ++ t) : False := by
  rcases List.append_eq_append_iff.mp h with ⟨a, ha1, ha2⟩ | ⟨c, hc1, _⟩
  · rcases a with _ | ⟨c0, a⟩
    · simp at ha1
      exact hn ⟨[' '], by rw [← ha1]; decide⟩
    · injection ha2 with hc0 _
      subst hc0
      have hE : ("ERROR: ".data : List Char) = ['E','R','R','O','R',':',' '] := rfl
      rw [hE] at ha1
      have hlen : n.length ≤ 6 := by
        have := congrArg List.length ha1
        simp at this
        omega
      have hget : (['E','R','R','O','R',':',' '] : List Char)[n.length]? = some ' ' := by
        rw [ha1, List.getElem?_append_right (Nat.le_refl _)]
        simp
      have hk : n.length = 6 := errorLit_space_at_six n.length (by omega) hget
      have ht2 : (n ++ ' ' :: a).take n.length = n := List.take_left _ _
      rw [← ha1, hk] at ht2
      exact hn ⟨[], by rw [← ht2]; rfl⟩
  · exact hn ⟨' ' :: c, by
      rw [hc1, show ("ERROR: ".data : List Char) = "ERROR:".data ++ [' '] from by decide,
        List.append_assoc, List.singleton_append]⟩

theorem logLine_data (name ts msg : String) :
    (logLine name ts msg).data
      = name.data
          ++ (' ' :: '-' :: ' ' :: '['
              :: ((rustDebugFmt ts).data ++ (']' :: ':' :: ' ' :: msg.data))) := by
  simp only [logLine, String.data_append, List.append_assoc]
  rfl

/-- C5 counterexample: a non-error operation CAN produce a line beginning
with `ERROR: `: a Logger whose name itself begins with `ERROR: ` (here
`"ERROR: x"`) makes `log` print a line that begins with `ERROR: `. -/
theorem c5_counterexample :
    stdoutOf ((Logger.log ⟨"ERROR: x", none, true⟩ "m" "T" "S" ⟨[], []⟩).2)
      = [logLine "ERROR: x" "T" "m"] ∧
    beginsWith "ERROR: " (logLine "ERROR: x" "T" "m") := by
  constructor
  · rfl
  · decide

/-- C5 (amended): every error-class line begins with `ERROR: `, and a
non-error line does not begin with `ERROR: ` provided the logger name
does not itself begin with `ERROR:` (without that proviso the claim fails,
see the counterexample). -/
theorem c5_error_marking (name ts msg : String) :
    beginsWith "ERROR: " (errorLine name ts msg) ∧
    (¬ beginsWith "ERROR:" name → ¬ beginsWith "ERROR: " (logLine name ts msg)) := by
  constructor
  · exact ⟨logLine name ts msg, errorLine_eq_append name ts msg⟩
  · intro hn hb
    obtain ⟨u, hu⟩ := (beginsWith_data _ _).mp hb
    rw [logLine_data] at hu
    exact no_error_marker name.data _ u
      (fun hv => hn ((beginsWith_data _ _).mpr hv)) hu

/-- Witness for C5 (amended) at a concrete name, timestamp and message. -/
theorem c5_witness :
    beginsWith "ERROR: " (errorLine "N" "T" "M") ∧
    ¬ beginsWith "ERROR: " (logLine "N" "T" "M") :=
  ⟨(c5_error_marking "N" "T" "M").1, (c5_error_marking "N" "T" "M").2 (by decide)⟩
